import Mathlib

/-!
Shallow embedding of the ledger & spending-limit engine of the
agent-payment repository.

The persistent store (sql.js tables `transactions`, `spending_limits`,
`withdrawal_requests`) is modelled as lists of rows inside `DBState`.
Every write issued through the store adapter (`execute`) is reified as a
`Stmt`, applied by `applyStmt`; each engine operation additionally returns
the list of `DBAction`s it issued (writes plus the BEGIN/COMMIT brackets
emitted by `runTransaction`), so that atomicity of the bookkeeping writes
can be stated as a property of the action trace.

Monetary amounts (SQLite `REAL`, JavaScript numbers) are modelled as `ℚ`.
Calendar dates (the `YYYY-MM-DD` strings produced by
`new Date().toISOString().split('T')[0]` and compared only for equality)
are modelled as `String`; the current date and the environment-supplied
configuration are bundled in `Env` and held fixed across one logical
operation.  Timestamp columns other than `confirmed_at` / `completed_at`
(which the code sets explicitly and which are modelled as "has been set"
flags) are not represented: no query of the engine reads them.

External collaborators (the Solana balance check and transfer submission)
are parameters of the orchestrator functions: `hasBalance : Bool` stands
for the result of `hasEnoughUsdc`, and `settle : Except String String`
stands for the outcome of `transferUsdc` (`.ok signature` or a raised
error with message).
-/

namespace AgentPay

/-- Status column of the `transactions` table (src/unnamed schema):
`pending`, `confirmed` or `failed`. -/
inductive TxStatus
  | pending
  | confirmed
  | failed
deriving DecidableEq, Repr, Inhabited

/-- The `tx_type` column: `transfer`, `withdrawal`, `deposit` or `fee`. -/
inductive TxType
  | transfer
  | withdrawal
  | deposit
  | fee
deriving DecidableEq, Repr, Inhabited

/-- Status column of the `withdrawal_requests` table. -/
inductive WStatus
  | pending
  | processing
  | completed
  | failed
deriving DecidableEq, Repr, Inhabited

/-- A row of the `transactions` table.  `confirmed_at` records whether the
confirmation timestamp has been stamped. -/
structure Transaction where
  id : Nat
  from_wallet_id : Nat
  to_wallet_id : Option Nat
  to_external_address : Option String
  amount : ℚ
  fee : ℚ
  tx_signature : Option String
  tx_type : TxType
  status : TxStatus
  error_message : Option String
  confirmed_at : Bool
deriving DecidableEq, Repr, Inhabited

/-- A row of the `spending_limits` table.  The surrogate `id` column is
never consulted by the engine (all access is by the UNIQUE `wallet_id`),
so it is not modelled. -/
structure SpendingLimit where
  wallet_id : Nat
  daily_limit : ℚ
  used_today : ℚ
  reset_date : String
deriving DecidableEq, Repr, Inhabited

/-- A row of the `withdrawal_requests` table.  `completed_at` records
whether the completion timestamp has been stamped. -/
structure WithdrawalRequest where
  id : Nat
  user_id : Nat
  wallet_id : Nat
  amount_usdc : ℚ
  amount_fiat : ℚ
  stripe_transfer_id : Option String
  status : WStatus
  completed_at : Bool
deriving DecidableEq, Repr, Inhabited

/-- The store state: the three tables the engine writes, plus the next
AUTOINCREMENT id for `transactions`. -/
structure DBState where
  transactions : List Transaction
  spending_limits : List SpendingLimit
  withdrawal_requests : List WithdrawalRequest
  next_tx_id : Nat
deriving DecidableEq, Repr, Inhabited

/-- The parameterized write statements the engine issues through
`execute` (src/app/src/db/queries.ts, src/app/src/services/fiat.ts). -/
inductive Stmt
  | insertTransaction (from_wallet_id : Nat) (to_wallet_id : Option Nat)
      (to_external_address : Option String) (amount : ℚ) (fee : ℚ)
      (tx_signature : Option String) (tx_type : TxType)
  | updateTxStatus (id : Nat) (status : TxStatus)
      (tx_signature : Option String) (error_message : Option String)
  | insertLimit (wallet_id : Nat) (daily_limit : ℚ) (reset_date : String)
  | updateLimitReset (wallet_id : Nat) (reset_date : String)
  | updateLimitSpend (wallet_id : Nat) (amount : ℚ)
  | updateWithdrawalCompleted (id : Nat)
deriving DecidableEq, Repr

/-- One store-adapter action: a transaction bracket or a write. -/
inductive DBAction
  | begin
  | commit
  | rollback
  | exec (stmt : Stmt)
deriving DecidableEq, Repr

/-- Row effect of the UPDATE in `updateTransactionStatus`: status is
overwritten, `tx_signature = COALESCE(?, tx_signature)` keeps the old
value only when no new one is supplied, `error_message` is overwritten
(with NULL when absent), and the `confirmed` branch stamps
`confirmed_at`. -/
def applyTxUpdate (status : TxStatus) (sig msg : Option String)
    (t : Transaction) : Transaction :=
  { t with
    status := status
    tx_signature := match sig with
      | some x => some x
      | none => t.tx_signature
    error_message := msg
    confirmed_at := if status = TxStatus.confirmed then true else t.confirmed_at }

/-- Row effect of the rollover UPDATE in `getOrCreateSpendingLimit`. -/
def applyLimitReset (date : String) (l : SpendingLimit) : SpendingLimit :=
  { l with used_today := 0, reset_date := date }

/-- Row effect of the `used_today = used_today + ?` UPDATE in
`recordSpending`. -/
def applyLimitSpend (amount : ℚ) (l : SpendingLimit) : SpendingLimit :=
  { l with used_today := l.used_today + amount }

/-- Row effect of the UPDATE in `completeWithdrawal`. -/
def applyWithdrawalComplete (w : WithdrawalRequest) : WithdrawalRequest :=
  { w with status := WStatus.completed, completed_at := true }

/-- Semantics of one write statement on the store state.  INSERTs append
a row (with schema defaults: status `pending`, `used_today` 0); UPDATEs
rewrite every row matching the WHERE clause. -/
def applyStmt (s : DBState) : Stmt → DBState
  | Stmt.insertTransaction fw tw ta amount fee sig ty =>
    { s with
      transactions := s.transactions ++
        [{ id := s.next_tx_id, from_wallet_id := fw, to_wallet_id := tw,
           to_external_address := ta, amount := amount, fee := fee,
           tx_signature := sig, tx_type := ty, status := TxStatus.pending,
           error_message := none, confirmed_at := false }]
      next_tx_id := s.next_tx_id + 1 }
  | Stmt.updateTxStatus id status sig msg =>
    { s with
      transactions := s.transactions.map fun t =>
        if t.id = id then applyTxUpdate status sig msg t else t }
  | Stmt.insertLimit w dl date =>
    { s with
      spending_limits := s.spending_limits ++
        [{ wallet_id := w, daily_limit := dl, used_today := 0, reset_date := date }] }
  | Stmt.updateLimitReset w date =>
    { s with
      spending_limits := s.spending_limits.map fun l =>
        if l.wallet_id = w then applyLimitReset date l else l }
  | Stmt.updateLimitSpend w amount =>
    { s with
      spending_limits := s.spending_limits.map fun l =>
        if l.wallet_id = w then applyLimitSpend amount l else l }
  | Stmt.updateWithdrawalCompleted id =>
    { s with
      withdrawal_requests := s.withdrawal_requests.map fun w =>
        if w.id = id then applyWithdrawalComplete w else w }

/-- `SELECT * FROM spending_limits WHERE wallet_id = ?` (first row). -/
def findLimit (s : DBState) (walletId : Nat) : Option SpendingLimit :=
  s.spending_limits.find? fun l => decide (l.wallet_id = walletId)

/-- `SELECT * FROM transactions WHERE id = ?` (first row). -/
def findTxById (s : DBState) (id : Nat) : Option Transaction :=
  s.transactions.find? fun t => decide (t.id = id)

/-- `SELECT * FROM withdrawal_requests WHERE id = ?` (first row). -/
def findWithdrawalById (s : DBState) (id : Nat) : Option WithdrawalRequest :=
  s.withdrawal_requests.find? fun w => decide (w.id = id)

/-- Accumulator step realizing `ORDER BY id DESC LIMIT 1`: keep the row
with the largest id. -/
def pickNewest (best : Option Transaction) (t : Transaction) : Option Transaction :=
  match best with
  | none => some t
  | some b => if b.id < t.id then some t else some b

/-- The re-query in `createTransaction`: the most recent row matching
`(from_wallet_id, amount, tx_type)`. -/
def findNewestTx (s : DBState) (fromWalletId : Nat) (amount : ℚ)
    (ty : TxType) : Option Transaction :=
  (s.transactions.filter fun t =>
    decide (t.from_wallet_id = fromWalletId) && decide (t.amount = amount)
      && decide (t.tx_type = ty)).foldl pickNewest none

/-- Environment-supplied configuration and the current calendar date,
fixed across one logical operation: `today` is the `YYYY-MM-DD` string,
`defaultDailyLimit` is `DEFAULT_DAILY_LIMIT` (source default 1000),
`platformFeePercent` is `PLATFORM_FEE_PERCENT` (source default 1), and
`solanaNetwork` is `SOLANA_NETWORK`. -/
structure Env where
  today : String
  defaultDailyLimit : ℚ
  platformFeePercent : ℚ
  solanaNetwork : String
deriving DecidableEq, Repr, Inhabited

/-- `getOrCreateSpendingLimit` (src/app/src/db/queries.ts:167-200): return
the wallet's limit row, eagerly rolling a stale row over to
`used_today = 0, reset_date = today`, or lazily inserting a default row.
The returned triple is (new state, returned row, issued actions). -/
def getOrCreateSpendingLimit (env : Env) (s : DBState) (walletId : Nat) :
    DBState × SpendingLimit × List DBAction :=
  match findLimit s walletId with
  | some existing =>
    if existing.reset_date ≠ env.today then
      let stmt := Stmt.updateLimitReset walletId env.today
      let s2 := applyStmt s stmt
      (s2, (findLimit s2 walletId).getD default, [DBAction.exec stmt])
    else
      (s, existing, [])
  | none =>
    let stmt := Stmt.insertLimit walletId env.defaultDailyLimit env.today
    let s2 := applyStmt s stmt
    (s2, (findLimit s2 walletId).getD default, [DBAction.exec stmt])

/-- `recordSpending` (src/app/src/db/queries.ts:223-235): ensure the row
exists and is rolled over, then increment `used_today` unconditionally. -/
def recordSpending (env : Env) (s : DBState) (walletId : Nat) (amount : ℚ) :
    DBState × SpendingLimit × List DBAction :=
  let r1 := getOrCreateSpendingLimit env s walletId
  let stmt := Stmt.updateLimitSpend walletId amount
  let s2 := applyStmt r1.1 stmt
  (s2, (findLimit s2 walletId).getD default, r1.2.2 ++ [DBAction.exec stmt])

/-- Result of `checkSpendingAllowed`. -/
structure SpendCheck where
  allowed : Bool
  remaining : ℚ
deriving DecidableEq, Repr

/-- `checkSpendingAllowed` (src/app/src/db/queries.ts:237-245):
`remaining = daily_limit - used_today` of the row returned by
`getOrCreateSpendingLimit`; `allowed = amount <= remaining`. -/
def checkSpendingAllowed (env : Env) (s : DBState) (walletId : Nat) (amount : ℚ) :
    DBState × SpendCheck × List DBAction :=
  let r1 := getOrCreateSpendingLimit env s walletId
  let remaining := r1.2.1.daily_limit - r1.2.1.used_today
  (r1.1, { allowed := decide (amount ≤ remaining), remaining := remaining }, r1.2.2)

/-- Options object of `createTransaction`. -/
structure CreateTxOptions where
  toWalletId : Option Nat := none
  toExternalAddress : Option String := none
  fee : Option ℚ := none
  txSignature : Option String := none
deriving DecidableEq, Repr, Inhabited

/-- `createTransaction` (src/app/src/db/queries.ts:92-129): INSERT a row
(status defaults to `pending`, fee to 0), then re-query the most recent
row matching `(from_wallet_id, amount, tx_type)`. -/
def createTransaction (s : DBState) (fromWalletId : Nat) (amount : ℚ)
    (txType : TxType) (options : CreateTxOptions) :
    DBState × Transaction × List DBAction :=
  let stmt := Stmt.insertTransaction fromWalletId options.toWalletId
    options.toExternalAddress amount (options.fee.getD 0) options.txSignature txType
  let s1 := applyStmt s stmt
  (s1, (findNewestTx s1 fromWalletId amount txType).getD default, [DBAction.exec stmt])

/-- Options object of `updateTransactionStatus`. -/
structure UpdateTxOptions where
  txSignature : Option String := none
  errorMessage : Option String := none
deriving DecidableEq, Repr, Inhabited

/-- `updateTransactionStatus` (src/app/src/db/queries.ts:131-153): an
unconditional UPDATE of the row's status (both SQL branches set status,
`tx_signature = COALESCE(?, tx_signature)` and `error_message`; the
`confirmed` branch additionally stamps `confirmed_at`), followed by a
re-query of the row. -/
def updateTransactionStatus (s : DBState) (id : Nat) (status : TxStatus)
    (options : UpdateTxOptions) : DBState × Transaction × List DBAction :=
  let stmt := Stmt.updateTxStatus id status options.txSignature options.errorMessage
  let s1 := applyStmt s stmt
  (s1, (findTxById s1 id).getD default, [DBAction.exec stmt])

/-- `runTransaction` (src/money/src/db/index.ts:141-154): bracket the
callback's writes in BEGIN/COMMIT.  The modelled callbacks are total, so
the rollback branch is never taken. -/
def runTransaction {α : Type} (s : DBState)
    (fn : DBState → DBState × α × List DBAction) : DBState × α × List DBAction :=
  let r := fn s
  (r.1, r.2.1, DBAction.begin :: r.2.2 ++ [DBAction.commit])

/-- `executeTransfer` (src/app/src/db/queries.ts:249-270): inside one
`runTransaction`, record the spend of `amount + fee`, create a transfer
row carrying the signature, and mark it confirmed. -/
def executeTransfer (env : Env) (s : DBState) (fromWalletId toWalletId : Nat)
    (amount : ℚ) (txSignature : String) (fee : ℚ) :
    DBState × Transaction × List DBAction :=
  runTransaction s fun s0 =>
    let r1 := recordSpending env s0 fromWalletId (amount + fee)
    let r2 := createTransaction r1.1 fromWalletId amount TxType.transfer
      { toWalletId := some toWalletId, fee := some fee, txSignature := some txSignature }
    let r3 := updateTransactionStatus r2.1 r2.2.1.id TxStatus.confirmed
      { txSignature := some txSignature }
    (r3.1, r3.2.1, r1.2.2 ++ r2.2.2 ++ r3.2.2)

/-- Result shape returned to the front-end by the transfer orchestrator. -/
structure TransferResult where
  success : Bool
  transaction : Option Transaction := none
  signature : Option String := none
  explorerUrl : Option String := none
  error : Option String := none
deriving DecidableEq, Repr

/-- `getExplorerUrl` (src/app/src/utils/solana.ts). -/
def getExplorerUrl (signature network : String) : String :=
  "https://explorer.solana.com/tx/" ++ signature ++ "?cluster=" ++ network

/-- The limit-declined message of the orchestrator.  The source formats
the remaining quota with `toFixed(2)`; the 2-decimal formatting is
presentation and is elided here. -/
def limitExceededMessage (remaining : ℚ) : String :=
  "Daily spending limit exceeded. Remaining: $" ++ toString remaining

/-- `transfer` (src/money/src/services/transaction.ts:36-116): internal
transfer between two known wallets.  Wallets enter the engine only
through their ids (the public key and keypair feed the external
collaborators, abstracted by `hasBalance` and `settle`).  On settlement
success the source calls `executeTransfer`, on failure it marks the
pending row failed and returns the error as a string. -/
def transfer (env : Env) (s : DBState) (fromWalletId toWalletId : Nat)
    (amount : ℚ) (hasBalance : Bool) (settle : Except String String) :
    DBState × TransferResult × List DBAction :=
  let c := checkSpendingAllowed env s fromWalletId amount
  if !c.2.1.allowed then
    (c.1, { success := false, error := some (limitExceededMessage c.2.1.remaining) }, c.2.2)
  else if !hasBalance then
    (c.1, { success := false, error := some "Insufficient USDC balance" }, c.2.2)
  else
    let fee := amount * (env.platformFeePercent / 100)
    let p := createTransaction c.1 fromWalletId amount TxType.transfer
      { toWalletId := some toWalletId, fee := some fee }
    match settle with
    | Except.ok signature =>
      let e := executeTransfer env p.1 fromWalletId toWalletId amount signature fee
      (e.1,
       { success := true, transaction := some e.2.1, signature := some signature,
         explorerUrl := some (getExplorerUrl signature env.solanaNetwork) },
       c.2.2 ++ p.2.2 ++ e.2.2)
    | Except.error msg =>
      let u := updateTransactionStatus p.1 p.2.1.id TxStatus.failed
        { errorMessage := some msg }
      (u.1, { success := false, error := some msg }, c.2.2 ++ p.2.2 ++ u.2.2)

/-- `transferExternal` (src/money/src/services/transaction.ts:121-192):
transfer to an external address.  `addressValid` abstracts the
`new PublicKey(toAddress)` parse.  On settlement success the spend is
recorded and the pending row confirmed by two separate statements (no
`runTransaction`); on failure the pending row is marked failed. -/
def transferExternal (env : Env) (s : DBState) (fromWalletId : Nat)
    (toAddress : String) (amount : ℚ) (addressValid : Bool)
    (hasBalance : Bool) (settle : Except String String) :
    DBState × TransferResult × List DBAction :=
  if !addressValid then
    (s, { success := false, error := some "Invalid Solana address" }, [])
  else
    let c := checkSpendingAllowed env s fromWalletId amount
    if !c.2.1.allowed then
      (c.1, { success := false, error := some (limitExceededMessage c.2.1.remaining) }, c.2.2)
    else if !hasBalance then
      (c.1, { success := false, error := some "Insufficient USDC balance" }, c.2.2)
    else
      let p := createTransaction c.1 fromWalletId amount TxType.transfer
        { toExternalAddress := some toAddress }
      match settle with
      | Except.ok signature =>
        let r := recordSpending env p.1 fromWalletId amount
        let u := updateTransactionStatus r.1 p.2.1.id TxStatus.confirmed
          { txSignature := some signature }
        (u.1,
         { success := true, transaction := some u.2.1, signature := some signature,
           explorerUrl := some (getExplorerUrl signature env.solanaNetwork) },
         c.2.2 ++ p.2.2 ++ r.2.2 ++ u.2.2)
      | Except.error msg =>
        let u := updateTransactionStatus p.1 p.2.1.id TxStatus.failed
          { errorMessage := some msg }
        (u.1, { success := false, error := some msg }, c.2.2 ++ p.2.2 ++ u.2.2)

/-- `completeWithdrawal` (src/app/src/services/fiat.ts:151-163): an
unconditional UPDATE to status `completed` with the completion timestamp,
followed by a re-query of the row. -/
def completeWithdrawal (s : DBState) (requestId : Nat) :
    DBState × Option WithdrawalRequest × List DBAction :=
  let stmt := Stmt.updateWithdrawalCompleted requestId
  let s1 := applyStmt s stmt
  (s1, findWithdrawalById s1 requestId, [DBAction.exec stmt])

/-- Trace predicate: every write (`exec`) occurs at positive transaction
depth, i.e. between a BEGIN and its COMMIT/ROLLBACK. -/
def writesInsideTx : List DBAction → Nat → Bool
  | [], _ => true
  | DBAction.begin :: rest, depth => writesInsideTx rest (depth + 1)
  | DBAction.commit :: rest, depth => writesInsideTx rest (depth - 1)
  | DBAction.rollback :: rest, depth => writesInsideTx rest (depth - 1)
  | DBAction.exec _ :: rest, depth => decide (0 < depth) && writesInsideTx rest depth

/-- Trace predicate: the trace consists of plain writes only, with no
transaction bracket at all. -/
def execOnly (t : List DBAction) : Bool :=
  t.all fun a =>
    match a with
    | DBAction.exec _ => true
    | _ => false

/-- Decidable freshness invariant of the AUTOINCREMENT id: every existing
transaction row's id is below `next_tx_id`.  Holds for every state the
engine itself builds from an empty store. -/
def txIdsFresh (s : DBState) : Bool :=
  s.transactions.all fun t => decide (t.id < s.next_tx_id)

/-- The row `createTransaction` inserts (and, with fresh ids, returns). -/
def insertedTx (s : DBState) (fromWalletId : Nat) (amount : ℚ) (ty : TxType)
    (opts : CreateTxOptions) : Transaction :=
  { id := s.next_tx_id, from_wallet_id := fromWalletId, to_wallet_id := opts.toWalletId,
    to_external_address := opts.toExternalAddress, amount := amount,
    fee := opts.fee.getD 0, tx_signature := opts.txSignature, tx_type := ty,
    status := TxStatus.pending, error_message := none, confirmed_at := false }

/-- Iterated `recordSpending` calls (final state only). -/
def recordSeq (env : Env) (s : DBState) (walletId : Nat) (amounts : List ℚ) : DBState :=
  amounts.foldl (fun st a => (recordSpending env st walletId a).1) s

section TestStates

/-- Configuration used by the concrete witnesses: today is 2026-10-11, the
default cap is 1000 (source default), the platform fee is 1 percent. -/
def env0 : Env :=
  { today := "2026-10-11", defaultDailyLimit := 1000, platformFeePercent := 1,
    solanaNetwork := "devnet" }

/-- Wallet 1's limit row in the spec scenario: cap 100, 80 already used,
reset today. -/
def limitRow80 : SpendingLimit :=
  { wallet_id := 1, daily_limit := 100, used_today := 80, reset_date := "2026-10-11" }

/-- Store with only the scenario limit row. -/
def stateUsed80 : DBState :=
  { transactions := [], spending_limits := [limitRow80], withdrawal_requests := [],
    next_tx_id := 1 }

/-- A limit row whose `reset_date` is stale (yesterday). -/
def limitRowStale : SpendingLimit :=
  { wallet_id := 1, daily_limit := 100, used_today := 80, reset_date := "2026-10-10" }

/-- Store with only the stale limit row. -/
def stateStale : DBState :=
  { transactions := [], spending_limits := [limitRowStale], withdrawal_requests := [],
    next_tx_id := 1 }

/-- Store with no limit row at all. -/
def stateNoLimit : DBState :=
  { transactions := [], spending_limits := [], withdrawal_requests := [],
    next_tx_id := 1 }

/-- Wallet 1's limit row with nothing used yet, reset today. -/
def limitRowFresh : SpendingLimit :=
  { wallet_id := 1, daily_limit := 100, used_today := 0, reset_date := "2026-10-11" }

/-- Store with the fresh limit row and an empty ledger. -/
def stateFresh : DBState :=
  { transactions := [], spending_limits := [limitRowFresh], withdrawal_requests := [],
    next_tx_id := 1 }

/-- A transaction row already in terminal status `confirmed`, with a
settlement reference. -/
def confirmedTxRow : Transaction :=
  { id := 1, from_wallet_id := 1, to_wallet_id := some 2, to_external_address := none,
    amount := 50, fee := 0, tx_signature := some "sig1", tx_type := TxType.transfer,
    status := TxStatus.confirmed, error_message := none, confirmed_at := true }

/-- Store holding only `confirmedTxRow`. -/
def stateConfirmedTx : DBState :=
  { transactions := [confirmedTxRow], spending_limits := [], withdrawal_requests := [],
    next_tx_id := 2 }

/-- A withdrawal request already in terminal status `failed`. -/
def failedWithdrawalRow : WithdrawalRequest :=
  { id := 1, user_id := 1, wallet_id := 1, amount_usdc := 50, amount_fiat := 49,
    stripe_transfer_id := some "tr_mock_1", status := WStatus.failed,
    completed_at := false }

/-- Store holding only `failedWithdrawalRow`. -/
def stateFailedWithdrawal : DBState :=
  { transactions := [], spending_limits := [], withdrawal_requests := [failedWithdrawalRow],
    next_tx_id := 1 }

end TestStates

section Lemmas

lemma find?_map_if {α : Type} (key : α → Nat) (k : Nat) (f : α → α)
    (hid : ∀ a, key (f a) = key a) (l : List α) :
    ((l.map fun a => if key a = k then f a else a).find? fun a => decide (key a = k))
      = (l.find? fun a => decide (key a = k)).map f := by
  induction l with
  | nil => rfl
  | cons h t ih =>
    by_cases hk : key h = k
    · simp [List.find?_cons, hk, hid]
    · simp [List.find?_cons, hk, ih]

lemma find?_append_none {α : Type} (p : α → Bool) (l₁ l₂ : List α)
    (h : l₁.find? p = none) : (l₁ ++ l₂).find? p = l₂.find? p := by
  induction l₁ with
  | nil => rfl
  | cons a t ih =>
    by_cases ha : p a
    · rw [List.find?_cons_of_pos _ ha] at h; exact absurd h (by simp)
    · rw [List.find?_cons_of_neg _ ha] at h
      simpa [List.find?_cons_of_neg _ ha] using ih h

lemma findTxById_update (s : DBState) (id : Nat) (status : TxStatus)
    (sig msg : Option String) :
    findTxById (applyStmt s (Stmt.updateTxStatus id status sig msg)) id
      = (findTxById s id).map (applyTxUpdate status sig msg) :=
  find?_map_if Transaction.id id (applyTxUpdate status sig msg) (fun _ => rfl)
    s.transactions

lemma findLimit_reset (s : DBState) (w : Nat) (date : String) :
    findLimit (applyStmt s (Stmt.updateLimitReset w date)) w
      = (findLimit s w).map (applyLimitReset date) :=
  find?_map_if SpendingLimit.wallet_id w (applyLimitReset date) (fun _ => rfl)
    s.spending_limits

lemma findLimit_spend (s : DBState) (w : Nat) (amount : ℚ) :
    findLimit (applyStmt s (Stmt.updateLimitSpend w amount)) w
      = (findLimit s w).map (applyLimitSpend amount) :=
  find?_map_if SpendingLimit.wallet_id w (applyLimitSpend amount) (fun _ => rfl)
    s.spending_limits

lemma findWithdrawalById_complete (s : DBState) (id : Nat) :
    findWithdrawalById (applyStmt s (Stmt.updateWithdrawalCompleted id)) id
      = (findWithdrawalById s id).map applyWithdrawalComplete :=
  find?_map_if WithdrawalRequest.id id applyWithdrawalComplete (fun _ => rfl)
    s.withdrawal_requests

lemma findLimit_insert_self (s : DBState) (w : Nat) (dl : ℚ) (date : String)
    (h : findLimit s w = none) :
    findLimit (applyStmt s (Stmt.insertLimit w dl date)) w
      = some { wallet_id := w, daily_limit := dl, used_today := 0, reset_date := date } := by
  unfold findLimit applyStmt
  unfold findLimit at h
  rw [find?_append_none _ _ _ h]
  simp [List.find?_cons]

lemma txIdsFresh_no_hit (s : DBState) (h : txIdsFresh s = true) :
    findTxById s s.next_tx_id = none := by
  unfold findTxById
  rw [List.find?_eq_none]
  intro t ht
  have := (List.all_eq_true.mp h) t ht
  simp only [decide_eq_true_eq] at this ⊢
  omega

lemma findTxById_insert_fresh (s : DBState) (fw : Nat) (tw : Option Nat)
    (ta : Option String) (amount fee : ℚ) (sig : Option String) (ty : TxType)
    (h : txIdsFresh s = true) :
    findTxById (applyStmt s (Stmt.insertTransaction fw tw ta amount fee sig ty))
        s.next_tx_id
      = some { id := s.next_tx_id, from_wallet_id := fw, to_wallet_id := tw,
               to_external_address := ta, amount := amount, fee := fee,
               tx_signature := sig, tx_type := ty, status := TxStatus.pending,
               error_message := none, confirmed_at := false } := by
  have hn := txIdsFresh_no_hit s h
  unfold findTxById at hn ⊢
  unfold applyStmt
  rw [find?_append_none _ _ _ hn]
  simp [List.find?_cons]

lemma foldl_pickNewest_big (x : Transaction) :
    ∀ (l : List Transaction) (acc : Option Transaction),
      (∀ t ∈ l, t.id < x.id) → (∀ b, acc = some b → b.id < x.id) →
      (l ++ [x]).foldl pickNewest acc = some x := by
  intro l
  induction l with
  | nil =>
    intro acc _ hacc
    cases acc with
    | none => rfl
    | some b => simp [pickNewest, hacc b rfl]
  | cons hd tl ih =>
    intro acc hl hacc
    have hh : hd.id < x.id := hl hd (List.mem_cons_self hd tl)
    show (tl ++ [x]).foldl pickNewest (pickNewest acc hd) = some x
    apply ih
    · intro u hu
      exact hl u (List.mem_cons_of_mem hd hu)
    · intro b hb
      cases acc with
      | none =>
        simp only [pickNewest] at hb
        cases hb
        exact hh
      | some c =>
        have hc := hacc c rfl
        simp only [pickNewest] at hb
        by_cases hlt : c.id < hd.id
        · rw [if_pos hlt] at hb
          cases hb
          exact hh
        · rw [if_neg hlt] at hb
          cases hb
          exact hc

lemma findNewestTx_insert (s : DBState) (fw : Nat) (tw : Option Nat)
    (ta : Option String) (amount fee : ℚ) (sig : Option String) (ty : TxType)
    (h : txIdsFresh s = true) :
    findNewestTx (applyStmt s (Stmt.insertTransaction fw tw ta amount fee sig ty))
        fw amount ty
      = some { id := s.next_tx_id, from_wallet_id := fw, to_wallet_id := tw,
               to_external_address := ta, amount := amount, fee := fee,
               tx_signature := sig, tx_type := ty, status := TxStatus.pending,
               error_message := none, confirmed_at := false } := by
  unfold findNewestTx applyStmt
  rw [List.filter_append]
  have hone : (List.filter (fun t : Transaction =>
      decide (t.from_wallet_id = fw) && decide (t.amount = amount)
        && decide (t.tx_type = ty))
      ([{ id := s.next_tx_id, from_wallet_id := fw, to_wallet_id := tw,
          to_external_address := ta, amount := amount, fee := fee,
          tx_signature := sig, tx_type := ty, status := TxStatus.pending,
          error_message := none, confirmed_at := false }] : List Transaction))
      = ([{ id := s.next_tx_id, from_wallet_id := fw, to_wallet_id := tw,
            to_external_address := ta, amount := amount, fee := fee,
            tx_signature := sig, tx_type := ty, status := TxStatus.pending,
            error_message := none, confirmed_at := false }] : List Transaction) := by
    simp
  rw [hone]
  apply foldl_pickNewest_big
  · intro t ht
    have hmem := (List.mem_filter.mp ht).1
    have := (List.all_eq_true.mp h) t hmem
    simp only [decide_eq_true_eq] at this
    exact this
  · intro b hb
    exact absurd hb (by simp)

lemma createTransaction_fresh (s : DBState) (fw : Nat) (amount : ℚ)
    (ty : TxType) (opts : CreateTxOptions) (h : txIdsFresh s = true) :
    createTransaction s fw amount ty opts
      = (applyStmt s (Stmt.insertTransaction fw opts.toWalletId
           opts.toExternalAddress amount (opts.fee.getD 0) opts.txSignature ty),
         insertedTx s fw amount ty opts,
         [DBAction.exec (Stmt.insertTransaction fw opts.toWalletId
           opts.toExternalAddress amount (opts.fee.getD 0) opts.txSignature ty)]) := by
  simp only [createTransaction]
  rw [findNewestTx_insert s fw opts.toWalletId opts.toExternalAddress amount
    (opts.fee.getD 0) opts.txSignature ty h]
  rfl

lemma getOrCreate_current (env : Env) (s : DBState) (w : Nat) (l : SpendingLimit)
    (h1 : findLimit s w = some l) (h2 : l.reset_date = env.today) :
    getOrCreateSpendingLimit env s w = (s, l, []) := by
  unfold getOrCreateSpendingLimit
  rw [h1]
  simp [h2]

lemma getOrCreate_stale (env : Env) (s : DBState) (w : Nat) (l : SpendingLimit)
    (h1 : findLimit s w = some l) (h2 : l.reset_date ≠ env.today) :
    getOrCreateSpendingLimit env s w
      = (applyStmt s (Stmt.updateLimitReset w env.today),
         applyLimitReset env.today l,
         [DBAction.exec (Stmt.updateLimitReset w env.today)]) := by
  unfold getOrCreateSpendingLimit
  rw [h1]
  simp [h2]
  rw [findLimit_reset, h1]
  rfl

lemma getOrCreate_absent (env : Env) (s : DBState) (w : Nat)
    (h : findLimit s w = none) :
    getOrCreateSpendingLimit env s w
      = (applyStmt s (Stmt.insertLimit w env.defaultDailyLimit env.today),
         { wallet_id := w, daily_limit := env.defaultDailyLimit, used_today := 0,
           reset_date := env.today },
         [DBAction.exec (Stmt.insertLimit w env.defaultDailyLimit env.today)]) := by
  simp only [getOrCreateSpendingLimit, h]
  rw [findLimit_insert_self s w env.defaultDailyLimit env.today h]
  rfl

lemma getOrCreate_row_current (env : Env) (s : DBState) (w : Nat) :
    findLimit (getOrCreateSpendingLimit env s w).1 w
        = some (getOrCreateSpendingLimit env s w).2.1
      ∧ (getOrCreateSpendingLimit env s w).2.1.reset_date = env.today := by
  cases hf : findLimit s w with
  | none =>
    rw [getOrCreate_absent env s w hf]
    exact ⟨findLimit_insert_self s w env.defaultDailyLimit env.today hf, rfl⟩
  | some l =>
    by_cases hd : l.reset_date = env.today
    · rw [getOrCreate_current env s w l hf hd]
      exact ⟨hf, hd⟩
    · rw [getOrCreate_stale env s w l hf hd]
      constructor
      · rw [findLimit_reset, hf]; rfl
      · rfl

lemma recordSpending_current (env : Env) (s : DBState) (w : Nat)
    (l : SpendingLimit) (a : ℚ)
    (h1 : findLimit s w = some l) (h2 : l.reset_date = env.today) :
    recordSpending env s w a
      = (applyStmt s (Stmt.updateLimitSpend w a), applyLimitSpend a l,
         [DBAction.exec (Stmt.updateLimitSpend w a)]) := by
  simp only [recordSpending, getOrCreate_current env s w l h1 h2]
  rw [findLimit_spend, h1]
  rfl

lemma check_current (env : Env) (s : DBState) (w : Nat) (l : SpendingLimit)
    (a : ℚ) (h1 : findLimit s w = some l) (h2 : l.reset_date = env.today) :
    checkSpendingAllowed env s w a
      = (s, { allowed := decide (a ≤ l.daily_limit - l.used_today),
              remaining := l.daily_limit - l.used_today }, []) := by
  unfold checkSpendingAllowed
  rw [getOrCreate_current env s w l h1 h2]

lemma recordSeq_current (env : Env) (w : Nat) :
    ∀ (amounts : List ℚ) (s : DBState) (l : SpendingLimit),
      findLimit s w = some l → l.reset_date = env.today →
      findLimit (recordSeq env s w amounts) w
        = some { l with used_today := l.used_today + amounts.sum } := by
  intro amounts
  induction amounts with
  | nil =>
    intro s l h1 h2
    show findLimit s w = some { l with used_today := l.used_today + ([] : List ℚ).sum }
    rw [h1]
    simp
  | cons a rest ih =>
    intro s l h1 h2
    show findLimit (recordSeq env (recordSpending env s w a).1 w rest) w
      = some { l with used_today := l.used_today + (a :: rest).sum }
    rw [recordSpending_current env s w l a h1 h2]
    have h1b : findLimit (applyStmt s (Stmt.updateLimitSpend w a)) w
        = some (applyLimitSpend a l) := by
      rw [findLimit_spend, h1]
      rfl
    have h2b : (applyLimitSpend a l).reset_date = env.today := h2
    have hrec := ih (applyStmt s (Stmt.updateLimitSpend w a)) (applyLimitSpend a l) h1b h2b
    rw [hrec]
    have hx : (applyLimitSpend a l).used_today + rest.sum
        = l.used_today + (a :: rest).sum := by
      simp only [applyLimitSpend, List.sum_cons]
      ring
    rw [hx]
    rfl

lemma execOnly_append (t1 t2 : List DBAction) :
    execOnly (t1 ++ t2) = (execOnly t1 && execOnly t2) :=
  List.all_append

lemma execOnly_getOrCreate (env : Env) (s : DBState) (w : Nat) :
    execOnly (getOrCreateSpendingLimit env s w).2.2 = true := by
  cases hf : findLimit s w with
  | none =>
    rw [getOrCreate_absent env s w hf]
    rfl
  | some l =>
    by_cases hd : l.reset_date = env.today
    · rw [getOrCreate_current env s w l hf hd]
      rfl
    · rw [getOrCreate_stale env s w l hf hd]
      rfl

lemma execOnly_recordSpending (env : Env) (s : DBState) (w : Nat) (a : ℚ) :
    execOnly (recordSpending env s w a).2.2 = true := by
  show execOnly ((getOrCreateSpendingLimit env s w).2.2
    ++ [DBAction.exec (Stmt.updateLimitSpend w a)]) = true
  rw [execOnly_append, execOnly_getOrCreate]
  rfl

lemma writesInsideTx_execOnly (t rest : List DBAction) (d : Nat)
    (h : execOnly t = true) (hd : 0 < d) :
    writesInsideTx (t ++ rest) d = writesInsideTx rest d := by
  induction t with
  | nil => rfl
  | cons a t ih =>
    rw [execOnly, List.all_cons, Bool.and_eq_true] at h
    cases a with
    | exec st =>
      show (decide (0 < d) && writesInsideTx (t ++ rest) d) = writesInsideTx rest d
      rw [decide_eq_true hd, Bool.true_and]
      exact ih h.2
    | begin => exact absurd h.1 (by decide)
    | commit => exact absurd h.1 (by decide)
    | rollback => exact absurd h.1 (by decide)

lemma writesInsideTx_wrap (t : List DBAction) (h : execOnly t = true) :
    writesInsideTx (DBAction.begin :: t ++ [DBAction.commit]) 0 = true := by
  show writesInsideTx (t ++ [DBAction.commit]) 1 = true
  rw [writesInsideTx_execOnly t [DBAction.commit] 1 h (by decide)]
  rfl

lemma txIdsFresh_insert (s : DBState) (fw : Nat) (tw : Option Nat)
    (ta : Option String) (amount fee : ℚ) (sig : Option String) (ty : TxType)
    (h : txIdsFresh s = true) :
    txIdsFresh (applyStmt s (Stmt.insertTransaction fw tw ta amount fee sig ty)) = true := by
  unfold txIdsFresh at h ⊢
  unfold applyStmt
  rw [List.all_append, Bool.and_eq_true]
  constructor
  · rw [List.all_eq_true] at h ⊢
    intro t ht
    have := h t ht
    simp only [decide_eq_true_eq] at this ⊢
    omega
  · simp

lemma executeTransfer_char (env : Env) (s : DBState) (fw tw : Nat) (amount : ℚ)
    (sig : String) (fee : ℚ) (l : SpendingLimit)
    (h1 : findLimit s fw = some l) (h2 : l.reset_date = env.today)
    (hF : txIdsFresh s = true) :
    executeTransfer env s fw tw amount sig fee
      = (applyStmt (applyStmt (applyStmt s
           (Stmt.updateLimitSpend fw (amount + fee)))
           (Stmt.insertTransaction fw (some tw) none amount fee (some sig) TxType.transfer))
           (Stmt.updateTxStatus s.next_tx_id TxStatus.confirmed (some sig) none),
         { id := s.next_tx_id, from_wallet_id := fw, to_wallet_id := some tw,
           to_external_address := none, amount := amount, fee := fee,
           tx_signature := some sig, tx_type := TxType.transfer,
           status := TxStatus.confirmed, error_message := none, confirmed_at := true },
         [DBAction.begin,
          DBAction.exec (Stmt.updateLimitSpend fw (amount + fee)),
          DBAction.exec (Stmt.insertTransaction fw (some tw) none amount fee (some sig)
            TxType.transfer),
          DBAction.exec (Stmt.updateTxStatus s.next_tx_id TxStatus.confirmed (some sig) none),
          DBAction.commit]) := by
  have hF1 : txIdsFresh (applyStmt s (Stmt.updateLimitSpend fw (amount + fee))) = true := hF
  have hc := createTransaction_fresh (applyStmt s (Stmt.updateLimitSpend fw (amount + fee)))
    fw amount TxType.transfer
    { toWalletId := some tw, fee := some fee, txSignature := some sig } hF1
  simp only [Option.getD_some] at hc
  have hfindIns : findTxById (applyStmt
      (applyStmt s (Stmt.updateLimitSpend fw (amount + fee)))
      (Stmt.insertTransaction fw (some tw) none amount fee (some sig) TxType.transfer))
      s.next_tx_id
      = some { id := s.next_tx_id, from_wallet_id := fw, to_wallet_id := some tw,
               to_external_address := none, amount := amount, fee := fee,
               tx_signature := some sig, tx_type := TxType.transfer,
               status := TxStatus.pending, error_message := none, confirmed_at := false } :=
    findTxById_insert_fresh (applyStmt s (Stmt.updateLimitSpend fw (amount + fee)))
      fw (some tw) none amount fee (some sig) TxType.transfer hF1
  simp only [executeTransfer, runTransaction,
    recordSpending_current env s fw l (amount + fee) h1 h2, hc,
    updateTransactionStatus, insertedTx, Option.getD_some]
  rw [show (applyStmt s (Stmt.updateLimitSpend fw (amount + fee))).next_tx_id
    = s.next_tx_id from rfl]
  rw [findTxById_update, hfindIns]
  rfl

lemma transfer_ok_char (env : Env) (s : DBState) (fw tw : Nat) (amount : ℚ)
    (sig : String) (l : SpendingLimit)
    (h1 : findLimit s fw = some l) (h2 : l.reset_date = env.today)
    (hA : amount ≤ l.daily_limit - l.used_today) (hF : txIdsFresh s = true) :
    transfer env s fw tw amount true (Except.ok sig)
      = (applyStmt (applyStmt (applyStmt (applyStmt s
           (Stmt.insertTransaction fw (some tw) none amount
             (amount * (env.platformFeePercent / 100)) none TxType.transfer))
           (Stmt.updateLimitSpend fw (amount + amount * (env.platformFeePercent / 100))))
           (Stmt.insertTransaction fw (some tw) none amount
             (amount * (env.platformFeePercent / 100)) (some sig) TxType.transfer))
           (Stmt.updateTxStatus (s.next_tx_id + 1) TxStatus.confirmed (some sig) none),
         { success := true,
           transaction := some { id := s.next_tx_id + 1, from_wallet_id := fw,
                                 to_wallet_id := some tw, to_external_address := none,
                                 amount := amount,
                                 fee := amount * (env.platformFeePercent / 100),
                                 tx_signature := some sig, tx_type := TxType.transfer,
                                 status := TxStatus.confirmed,
                                 error_message := none, confirmed_at := true },
           signature := some sig,
           explorerUrl := some (getExplorerUrl sig env.solanaNetwork) },
         [DBAction.exec (Stmt.insertTransaction fw (some tw) none amount
            (amount * (env.platformFeePercent / 100)) none TxType.transfer),
          DBAction.begin,
          DBAction.exec (Stmt.updateLimitSpend fw
            (amount + amount * (env.platformFeePercent / 100))),
          DBAction.exec (Stmt.insertTransaction fw (some tw) none amount
            (amount * (env.platformFeePercent / 100)) (some sig) TxType.transfer),
          DBAction.exec (Stmt.updateTxStatus (s.next_tx_id + 1) TxStatus.confirmed
            (some sig) none),
          DBAction.commit]) := by
  have hA' : decide (amount ≤ l.daily_limit - l.used_today) = true := decide_eq_true hA
  have hcp := createTransaction_fresh s fw amount TxType.transfer
    { toWalletId := some tw, fee := some (amount * (env.platformFeePercent / 100)) } hF
  simp only [Option.getD_some] at hcp
  have hS1fresh := txIdsFresh_insert s fw (some tw) none amount
    (amount * (env.platformFeePercent / 100)) none TxType.transfer hF
  have h1b : findLimit (applyStmt s (Stmt.insertTransaction fw (some tw) none amount
      (amount * (env.platformFeePercent / 100)) none TxType.transfer)) fw = some l := h1
  have hexec := executeTransfer_char env (applyStmt s (Stmt.insertTransaction fw (some tw)
      none amount (amount * (env.platformFeePercent / 100)) none TxType.transfer))
    fw tw amount sig (amount * (env.platformFeePercent / 100)) l h1b h2 hS1fresh
  rw [show (applyStmt s (Stmt.insertTransaction fw (some tw) none amount
      (amount * (env.platformFeePercent / 100)) none TxType.transfer)).next_tx_id
    = s.next_tx_id + 1 from rfl] at hexec
  simp only [transfer, check_current env s fw l amount h1 h2, hA', Bool.not_true,
    Bool.false_eq_true, if_false, hcp, insertedTx, hexec]
  rfl

lemma transfer_err_char (env : Env) (s : DBState) (fw tw : Nat) (amount : ℚ)
    (msg : String) (l : SpendingLimit)
    (h1 : findLimit s fw = some l) (h2 : l.reset_date = env.today)
    (hA : amount ≤ l.daily_limit - l.used_today) (hF : txIdsFresh s = true) :
    transfer env s fw tw amount true (Except.error msg)
      = (applyStmt (applyStmt s
           (Stmt.insertTransaction fw (some tw) none amount
             (amount * (env.platformFeePercent / 100)) none TxType.transfer))
           (Stmt.updateTxStatus s.next_tx_id TxStatus.failed none (some msg)),
         { success := false, error := some msg },
         [DBAction.exec (Stmt.insertTransaction fw (some tw) none amount
            (amount * (env.platformFeePercent / 100)) none TxType.transfer),
          DBAction.exec (Stmt.updateTxStatus s.next_tx_id TxStatus.failed none (some msg))]) := by
  have hA' : decide (amount ≤ l.daily_limit - l.used_today) = true := decide_eq_true hA
  have hcp := createTransaction_fresh s fw amount TxType.transfer
    { toWalletId := some tw, fee := some (amount * (env.platformFeePercent / 100)) } hF
  simp only [Option.getD_some] at hcp
  simp only [transfer, check_current env s fw l amount h1 h2, hA', Bool.not_true,
    Bool.false_eq_true, if_false, hcp, insertedTx, updateTransactionStatus]
  rfl

lemma transferExternal_ok_char (env : Env) (s : DBState) (fw : Nat) (addr : String)
    (amount : ℚ) (sig : String) (l : SpendingLimit)
    (h1 : findLimit s fw = some l) (h2 : l.reset_date = env.today)
    (hA : amount ≤ l.daily_limit - l.used_today) (hF : txIdsFresh s = true) :
    transferExternal env s fw addr amount true true (Except.ok sig)
      = (applyStmt (applyStmt (applyStmt s
           (Stmt.insertTransaction fw none (some addr) amount 0 none TxType.transfer))
           (Stmt.updateLimitSpend fw amount))
           (Stmt.updateTxStatus s.next_tx_id TxStatus.confirmed (some sig) none),
         { success := true,
           transaction := some { id := s.next_tx_id, from_wallet_id := fw,
                                 to_wallet_id := none, to_external_address := some addr,
                                 amount := amount, fee := 0, tx_signature := some sig,
                                 tx_type := TxType.transfer, status := TxStatus.confirmed,
                                 error_message := none, confirmed_at := true },
           signature := some sig,
           explorerUrl := some (getExplorerUrl sig env.solanaNetwork) },
         [DBAction.exec (Stmt.insertTransaction fw none (some addr) amount 0 none
            TxType.transfer),
          DBAction.exec (Stmt.updateLimitSpend fw amount),
          DBAction.exec (Stmt.updateTxStatus s.next_tx_id TxStatus.confirmed (some sig) none)]) := by
  have hA' : decide (amount ≤ l.daily_limit - l.used_today) = true := decide_eq_true hA
  have hcp := createTransaction_fresh s fw amount TxType.transfer
    { toExternalAddress := some addr } hF
  simp only [Option.getD_none] at hcp
  have h1b : findLimit (applyStmt s (Stmt.insertTransaction fw none (some addr) amount 0
      none TxType.transfer)) fw = some l := h1
  have hfi : findTxById (applyStmt (applyStmt s (Stmt.insertTransaction fw none (some addr)
      amount 0 none TxType.transfer)) (Stmt.updateLimitSpend fw amount)) s.next_tx_id
      = some { id := s.next_tx_id, from_wallet_id := fw, to_wallet_id := none,
               to_external_address := some addr, amount := amount, fee := 0,
               tx_signature := none, tx_type := TxType.transfer, status := TxStatus.pending,
               error_message := none, confirmed_at := false } :=
    findTxById_insert_fresh s fw none (some addr) amount 0 none TxType.transfer hF
  simp only [transferExternal, check_current env s fw l amount h1 h2, hA', Bool.not_true,
    Bool.false_eq_true, if_false, hcp, insertedTx,
    recordSpending_current env _ fw l amount h1b h2, updateTransactionStatus]
  rw [findTxById_update, hfi]
  rfl

lemma transferExternal_err_char (env : Env) (s : DBState) (fw : Nat) (addr : String)
    (amount : ℚ) (msg : String) (l : SpendingLimit)
    (h1 : findLimit s fw = some l) (h2 : l.reset_date = env.today)
    (hA : amount ≤ l.daily_limit - l.used_today) (hF : txIdsFresh s = true) :
    transferExternal env s fw addr amount true true (Except.error msg)
      = (applyStmt (applyStmt s
           (Stmt.insertTransaction fw none (some addr) amount 0 none TxType.transfer))
           (Stmt.updateTxStatus s.next_tx_id TxStatus.failed none (some msg)),
         { success := false, error := some msg },
         [DBAction.exec (Stmt.insertTransaction fw none (some addr) amount 0 none
            TxType.transfer),
          DBAction.exec (Stmt.updateTxStatus s.next_tx_id TxStatus.failed none (some msg))]) := by
  have hA' : decide (amount ≤ l.daily_limit - l.used_today) = true := decide_eq_true hA
  have hcp := createTransaction_fresh s fw amount TxType.transfer
    { toExternalAddress := some addr } hF
  simp only [Option.getD_none] at hcp
  simp only [transferExternal, check_current env s fw l amount h1 h2, hA', Bool.not_true,
    Bool.false_eq_true, if_false, hcp, insertedTx, updateTransactionStatus]
  rfl

lemma transfer_err_stale_char :
    transfer env0 stateStale 1 2 10 true (Except.error "boom")
      = (applyStmt (applyStmt (applyStmt stateStale
           (Stmt.updateLimitReset 1 env0.today))
           (Stmt.insertTransaction 1 (some 2) none 10
             (10 * (env0.platformFeePercent / 100)) none TxType.transfer))
           (Stmt.updateTxStatus 1 TxStatus.failed none (some "boom")),
         { success := false, error := some "boom" },
         [DBAction.exec (Stmt.updateLimitReset 1 env0.today),
          DBAction.exec (Stmt.insertTransaction 1 (some 2) none 10
            (10 * (env0.platformFeePercent / 100)) none TxType.transfer),
          DBAction.exec (Stmt.updateTxStatus 1 TxStatus.failed none (some "boom"))]) := by
  have hc := getOrCreate_stale env0 stateStale 1 limitRowStale rfl (by decide)
  have hA' : decide ((10:ℚ) ≤ (applyLimitReset env0.today limitRowStale).daily_limit
      - (applyLimitReset env0.today limitRowStale).used_today) = true := by
    norm_num [applyLimitReset, limitRowStale]
  have hcp := createTransaction_fresh (applyStmt stateStale
      (Stmt.updateLimitReset 1 env0.today)) 1 10 TxType.transfer
    { toWalletId := some 2, fee := some (10 * (env0.platformFeePercent / 100)) } rfl
  simp only [Option.getD_some] at hcp
  simp only [transfer, checkSpendingAllowed, hc, hA', Bool.not_true, Bool.false_eq_true,
    if_false, hcp, insertedTx, updateTransactionStatus]
  rfl

end Lemmas

section Claims

/-- C6: for every wallet and amount, `checkSpendingAllowed` returns
`remaining = daily_limit - used_today` of the post-rollover row (a stale
row counting as used 0, a missing row counting as a fresh row with the
default cap) and `allowed = amount ≤ remaining`. -/
theorem check_returns_remaining_and_allowed (env : Env) (s : DBState) (w : Nat) (a : ℚ) :
    (∀ l, findLimit s w = some l → l.reset_date = env.today →
      (checkSpendingAllowed env s w a).2.1
        = { allowed := decide (a ≤ l.daily_limit - l.used_today),
            remaining := l.daily_limit - l.used_today }) ∧
    (∀ l, findLimit s w = some l → l.reset_date ≠ env.today →
      (checkSpendingAllowed env s w a).2.1
        = { allowed := decide (a ≤ l.daily_limit), remaining := l.daily_limit }) ∧
    (findLimit s w = none →
      (checkSpendingAllowed env s w a).2.1
        = { allowed := decide (a ≤ env.defaultDailyLimit),
            remaining := env.defaultDailyLimit }) := by
  refine ⟨?_, ?_, ?_⟩
  · intro l h1 h2
    rw [check_current env s w l a h1 h2]
  · intro l h1 h2
    simp only [checkSpendingAllowed, getOrCreate_stale env s w l h1 h2, applyLimitReset]
    norm_num
  · intro h
    simp only [checkSpendingAllowed, getOrCreate_absent env s w h]
    norm_num

/-- Witness for C6 at the spec scenario: `daily_limit = 100`,
`used_today = 80`; `check(wallet, 25)` yields not allowed with remaining
20, `check(wallet, 15)` yields allowed with remaining 20. -/
theorem check_returns_remaining_and_allowed_witness :
    (checkSpendingAllowed env0 stateUsed80 1 25).2.1 = { allowed := false, remaining := 20 } ∧
    (checkSpendingAllowed env0 stateUsed80 1 15).2.1 = { allowed := true, remaining := 20 } := by
  have h20 : limitRow80.daily_limit - limitRow80.used_today = 20 := by
    norm_num [limitRow80]
  constructor
  · rw [(check_returns_remaining_and_allowed env0 stateUsed80 1 25).1 limitRow80 rfl rfl]
    rw [h20]
    decide
  · rw [(check_returns_remaining_and_allowed env0 stateUsed80 1 15).1 limitRow80 rfl rfl]
    rw [h20]
    decide

/-- C7: recording a sequence of amounts on the same day accumulates
`used_today` to its initial value plus the sum, and a subsequent check
allows a new amount exactly when the running total plus the new amount is
at most the daily cap. -/
theorem recordSeq_sums_and_check (env : Env) (s : DBState) (w : Nat)
    (l : SpendingLimit) (amounts : List ℚ) (b : ℚ)
    (h1 : findLimit s w = some l) (h2 : l.reset_date = env.today) :
    findLimit (recordSeq env s w amounts) w
      = some { l with used_today := l.used_today + amounts.sum } ∧
    (checkSpendingAllowed env (recordSeq env s w amounts) w b).2.1.allowed
      = decide (l.used_today + amounts.sum + b ≤ l.daily_limit) := by
  have hrec := recordSeq_current env w amounts s l h1 h2
  refine ⟨hrec, ?_⟩
  have h2b : ({ l with used_today := l.used_today + amounts.sum } : SpendingLimit).reset_date
      = env.today := h2
  rw [check_current env (recordSeq env s w amounts) w _ b hrec h2b]
  show decide (b ≤ l.daily_limit - (l.used_today + amounts.sum))
    = decide (l.used_today + amounts.sum + b ≤ l.daily_limit)
  rw [decide_eq_decide]
  constructor
  · intro h
    linarith
  · intro h
    linarith

/-- Witness for C7: from 80 used, recording 5 and 10 brings `used_today`
to 95, and a further 6 is not allowed (95 + 6 > 100). -/
theorem recordSeq_sums_and_check_witness :
    (findLimit (recordSeq env0 stateUsed80 1 [5, 10]) 1
      = some { limitRow80 with used_today := limitRow80.used_today + ([5, 10] : List ℚ).sum }) ∧
    ((checkSpendingAllowed env0 (recordSeq env0 stateUsed80 1 [5, 10]) 1 6).2.1.allowed
      = decide (limitRow80.used_today + ([5, 10] : List ℚ).sum + 6 ≤ limitRow80.daily_limit)) :=
  recordSeq_sums_and_check env0 stateUsed80 1 limitRow80 [5, 10] 6 rfl rfl

/-- C8: a stale row is rewritten in place to `used_today = 0,
reset_date = today` by the first `getOrCreateSpendingLimit` call and that
row is returned; a same-day call returns the row with no state change at
all; hence re-running `getOrCreateSpendingLimit` on its own output is a
no-op (the reset happens exactly once per day). -/
theorem getOrCreate_rollover_once (env : Env) :
    (∀ s w l, findLimit s w = some l → l.reset_date ≠ env.today →
      getOrCreateSpendingLimit env s w
          = (applyStmt s (Stmt.updateLimitReset w env.today),
             { l with used_today := 0, reset_date := env.today },
             [DBAction.exec (Stmt.updateLimitReset w env.today)])
        ∧ findLimit (getOrCreateSpendingLimit env s w).1 w
          = some { l with used_today := 0, reset_date := env.today }) ∧
    (∀ s w l, findLimit s w = some l → l.reset_date = env.today →
      getOrCreateSpendingLimit env s w = (s, l, [])) ∧
    (∀ s w,
      getOrCreateSpendingLimit env (getOrCreateSpendingLimit env s w).1 w
        = ((getOrCreateSpendingLimit env s w).1,
           (getOrCreateSpendingLimit env s w).2.1, [])) := by
  refine ⟨?_, ?_, ?_⟩
  · intro s w l h1 h2
    have h := getOrCreate_stale env s w l h1 h2
    refine ⟨h, ?_⟩
    rw [h, findLimit_reset, h1]
    rfl
  · intro s w l h1 h2
    exact getOrCreate_current env s w l h1 h2
  · intro s w
    obtain ⟨ha, hb⟩ := getOrCreate_row_current env s w
    exact getOrCreate_current env _ w _ ha hb

/-- Witness for C8 at the stale state: the first call rewrites the stale
row, and a repeated call is a no-op on the result. -/
theorem getOrCreate_rollover_once_witness :
    (getOrCreateSpendingLimit env0 stateStale 1
      = (applyStmt stateStale (Stmt.updateLimitReset 1 "2026-10-11"),
         { limitRowStale with used_today := 0, reset_date := "2026-10-11" },
         [DBAction.exec (Stmt.updateLimitReset 1 "2026-10-11")])) ∧
    (getOrCreateSpendingLimit env0 (getOrCreateSpendingLimit env0 stateStale 1).1 1
      = ((getOrCreateSpendingLimit env0 stateStale 1).1,
         (getOrCreateSpendingLimit env0 stateStale 1).2.1, [])) := by
  constructor
  · exact ((getOrCreate_rollover_once env0).1 stateStale 1 limitRowStale rfl (by decide)).1
  · exact (getOrCreate_rollover_once env0).2.2 stateStale 1

/-- C9 counterexample: `checkSpendingAllowed` does mutate the store — a
missing limit row is created, and a stale row is rewritten, by the check
itself. -/
theorem check_mutates_counterexample :
    (checkSpendingAllowed env0 stateNoLimit 1 5).1 ≠ stateNoLimit ∧
    (checkSpendingAllowed env0 stateStale 1 5).1 ≠ stateStale := by
  constructor
  · intro h
    have hc : (checkSpendingAllowed env0 stateNoLimit 1 5).1
        = applyStmt stateNoLimit (Stmt.insertLimit 1 1000 "2026-10-11") := by
      simp only [checkSpendingAllowed, getOrCreate_absent env0 stateNoLimit 1 rfl]
      rfl
    rw [hc] at h
    have hlen := congrArg (fun st => st.spending_limits.length) h
    simp [applyStmt, stateNoLimit] at hlen
  · intro h
    have hc : (checkSpendingAllowed env0 stateStale 1 5).1
        = applyStmt stateStale (Stmt.updateLimitReset 1 "2026-10-11") := by
      simp only [checkSpendingAllowed,
        getOrCreate_stale env0 stateStale 1 limitRowStale rfl (by decide)]
      rfl
    rw [hc] at h
    have hrd := congrArg (fun st => (findLimit st 1).map SpendingLimit.reset_date) h
    simp only [findLimit_reset] at hrd
    rw [show findLimit stateStale 1 = some limitRowStale from rfl] at hrd
    simp [applyLimitReset, limitRowStale] at hrd

/-- C9 (amended): `checkSpendingAllowed` leaves the store exactly
unchanged when the wallet's row exists with a current `reset_date`; when
the row is missing it inserts a default row, and when the row is stale it
rewrites it to zero — the eager rollover of `getOrCreateSpendingLimit`
runs inside the check. -/
theorem check_mutation_amended (env : Env) (s : DBState) (w : Nat) (a : ℚ) :
    (∀ l, findLimit s w = some l → l.reset_date = env.today →
      (checkSpendingAllowed env s w a).1 = s) ∧
    (findLimit s w = none →
      (checkSpendingAllowed env s w a).1
        = applyStmt s (Stmt.insertLimit w env.defaultDailyLimit env.today)) ∧
    (∀ l, findLimit s w = some l → l.reset_date ≠ env.today →
      (checkSpendingAllowed env s w a).1
        = applyStmt s (Stmt.updateLimitReset w env.today)) := by
  refine ⟨?_, ?_, ?_⟩
  · intro l h1 h2
    rw [check_current env s w l a h1 h2]
  · intro h
    simp only [checkSpendingAllowed, getOrCreate_absent env s w h]
  · intro l h1 h2
    simp only [checkSpendingAllowed, getOrCreate_stale env s w l h1 h2]

/-- Witness for the amended C9: unchanged at a current row; insert at a
missing row; rewrite at a stale row. -/
theorem check_mutation_amended_witness :
    ((checkSpendingAllowed env0 stateFresh 1 5).1 = stateFresh) ∧
    ((checkSpendingAllowed env0 stateNoLimit 1 5).1
      = applyStmt stateNoLimit (Stmt.insertLimit 1 1000 "2026-10-11")) ∧
    ((checkSpendingAllowed env0 stateStale 1 5).1
      = applyStmt stateStale (Stmt.updateLimitReset 1 "2026-10-11")) := by
  refine ⟨?_, ?_, ?_⟩
  · exact (check_mutation_amended env0 stateFresh 1 5).1 limitRowFresh rfl rfl
  · exact (check_mutation_amended env0 stateNoLimit 1 5).2.1 rfl
  · exact (check_mutation_amended env0 stateStale 1 5).2.2 limitRowStale rfl (by decide)

/-- C10: `recordSpending` adds the amount to `used_today` unconditionally
(no comparison with the cap, no failure path), so an amount above the
remaining quota drives `used_today` past `daily_limit` and a subsequent
check then reports a negative remaining. -/
theorem recordSpending_unconditional (env : Env) (s : DBState) (w : Nat)
    (a : ℚ) (l : SpendingLimit)
    (h1 : findLimit s w = some l) (h2 : l.reset_date = env.today) :
    recordSpending env s w a
      = (applyStmt s (Stmt.updateLimitSpend w a),
         { l with used_today := l.used_today + a },
         [DBAction.exec (Stmt.updateLimitSpend w a)]) ∧
    findLimit (recordSpending env s w a).1 w
      = some { l with used_today := l.used_today + a } ∧
    (l.daily_limit - l.used_today < a →
      l.daily_limit < l.used_today + a ∧
      ∀ b, (checkSpendingAllowed env (recordSpending env s w a).1 w b).2.1.remaining < 0) := by
  have hr := recordSpending_current env s w l a h1 h2
  have hfind : findLimit (recordSpending env s w a).1 w
      = some { l with used_today := l.used_today + a } := by
    rw [hr, findLimit_spend, h1]
    rfl
  refine ⟨hr, hfind, ?_⟩
  intro hover
  have hgt : l.daily_limit < l.used_today + a := by linarith
  refine ⟨hgt, ?_⟩
  intro b
  have hdate : ({ l with used_today := l.used_today + a } : SpendingLimit).reset_date
      = env.today := h2
  rw [check_current env (recordSpending env s w a).1 w _ b hfind hdate]
  show l.daily_limit - (l.used_today + a) < 0
  linarith

/-- Witness for C10: from 80 used of a 100 cap, recording 50 (which
exceeds the remaining 20) yields `used_today = 130` and a negative
remaining on the next check. -/
theorem recordSpending_unconditional_witness :
    (findLimit (recordSpending env0 stateUsed80 1 50).1 1
      = some { limitRow80 with used_today := limitRow80.used_today + 50 }) ∧
    limitRow80.daily_limit < limitRow80.used_today + 50 ∧
    (checkSpendingAllowed env0 (recordSpending env0 stateUsed80 1 50).1 1 5).2.1.remaining < 0 := by
  have h := recordSpending_unconditional env0 stateUsed80 1 50 limitRow80 rfl rfl
  have hover : limitRow80.daily_limit - limitRow80.used_today < 50 := by
    norm_num [limitRow80]
  exact ⟨h.2.1, (h.2.2 hover).1, (h.2.2 hover).2 5⟩

/-- C2 counterexample: a `confirmed` transaction is overwritten to
`failed` by a further `updateTransactionStatus` call, and a `failed`
withdrawal request is overwritten to `completed` by `completeWithdrawal` —
terminal statuses are not immutable. -/
theorem terminal_overwrite_counterexample :
    ((findTxById stateConfirmedTx 1).map Transaction.status = some TxStatus.confirmed) ∧
    ((findTxById (updateTransactionStatus stateConfirmedTx 1 TxStatus.failed {}).1 1).map
        Transaction.status = some TxStatus.failed) ∧
    ((findWithdrawalById stateFailedWithdrawal 1).map WithdrawalRequest.status
      = some WStatus.failed) ∧
    ((findWithdrawalById (completeWithdrawal stateFailedWithdrawal 1).1 1).map
        WithdrawalRequest.status = some WStatus.completed) := by
  refine ⟨rfl, ?_, rfl, ?_⟩
  · show (findTxById (applyStmt stateConfirmedTx
        (Stmt.updateTxStatus 1 TxStatus.failed none none)) 1).map Transaction.status
      = some TxStatus.failed
    rw [findTxById_update]
    rfl
  · show (findWithdrawalById (applyStmt stateFailedWithdrawal
        (Stmt.updateWithdrawalCompleted 1)) 1).map WithdrawalRequest.status
      = some WStatus.completed
    rw [findWithdrawalById_complete]
    rfl

/-- C2 (amended): `updateTransactionStatus` and `completeWithdrawal`
perform unconditional overwrites: a further transition call on a row in
any status — terminal included — sets the stored status to the requested
status (`completed` for `completeWithdrawal`); no terminal-status guard
exists. -/
theorem transition_overwrites_status (s : DBState) :
    (∀ id status opts t, findTxById s id = some t →
      (findTxById (updateTransactionStatus s id status opts).1 id).map Transaction.status
        = some status) ∧
    (∀ id w, findWithdrawalById s id = some w →
      (findWithdrawalById (completeWithdrawal s id).1 id).map WithdrawalRequest.status
        = some WStatus.completed) := by
  constructor
  · intro id status opts t h
    show (findTxById (applyStmt s
        (Stmt.updateTxStatus id status opts.txSignature opts.errorMessage)) id).map
        Transaction.status = some status
    rw [findTxById_update, h]
    rfl
  · intro id w h
    show (findWithdrawalById (applyStmt s (Stmt.updateWithdrawalCompleted id)) id).map
        WithdrawalRequest.status = some WStatus.completed
    rw [findWithdrawalById_complete, h]
    rfl

/-- Witness for the amended C2 on the terminal test rows. -/
theorem transition_overwrites_status_witness :
    ((findTxById (updateTransactionStatus stateConfirmedTx 1 TxStatus.pending {}).1 1).map
        Transaction.status = some TxStatus.pending) ∧
    ((findWithdrawalById (completeWithdrawal stateFailedWithdrawal 1).1 1).map
        WithdrawalRequest.status = some WStatus.completed) :=
  ⟨(transition_overwrites_status stateConfirmedTx).1 1 TxStatus.pending {} confirmedTxRow rfl,
   (transition_overwrites_status stateFailedWithdrawal).2 1 failedWithdrawalRow rfl⟩

/-- C4 counterexample: a transition call that provides a settlement
reference overwrites an already-set `tx_signature` — `sig1` becomes
`sig2`, the original reference is not preserved. -/
theorem signature_overwrite_counterexample :
    ((findTxById stateConfirmedTx 1).map Transaction.tx_signature = some (some "sig1")) ∧
    ((findTxById (updateTransactionStatus stateConfirmedTx 1 TxStatus.confirmed
        { txSignature := some "sig2" }).1 1).map Transaction.tx_signature
      = some (some "sig2")) := by
  refine ⟨rfl, ?_⟩
  show (findTxById (applyStmt stateConfirmedTx
      (Stmt.updateTxStatus 1 TxStatus.confirmed (some "sig2") none)) 1).map
      Transaction.tx_signature = some (some "sig2")
  rw [findTxById_update]
  rfl

/-- C4 (amended): `COALESCE(?, tx_signature)` keeps the stored reference
only when the call provides none; a provided reference overwrites the
stored one (last-writer-wins, not first-writer-wins). -/
theorem signature_coalesce_amended (s : DBState) (id : Nat) (status : TxStatus)
    (t : Transaction) (h : findTxById s id = some t) :
    (∀ msg, (findTxById (updateTransactionStatus s id status
        { txSignature := none, errorMessage := msg }).1 id).map Transaction.tx_signature
      = some t.tx_signature) ∧
    (∀ x msg, (findTxById (updateTransactionStatus s id status
        { txSignature := some x, errorMessage := msg }).1 id).map Transaction.tx_signature
      = some (some x)) := by
  constructor
  · intro msg
    show (findTxById (applyStmt s (Stmt.updateTxStatus id status none msg)) id).map
        Transaction.tx_signature = some t.tx_signature
    rw [findTxById_update, h]
    rfl
  · intro x msg
    show (findTxById (applyStmt s (Stmt.updateTxStatus id status (some x) msg)) id).map
        Transaction.tx_signature = some (some x)
    rw [findTxById_update, h]
    rfl

/-- Witness for the amended C4 on the confirmed test row. -/
theorem signature_coalesce_amended_witness :
    ((findTxById (updateTransactionStatus stateConfirmedTx 1 TxStatus.confirmed
        { txSignature := none, errorMessage := none }).1 1).map Transaction.tx_signature
      = some (some "sig1")) ∧
    ((findTxById (updateTransactionStatus stateConfirmedTx 1 TxStatus.confirmed
        { txSignature := some "sigX", errorMessage := none }).1 1).map Transaction.tx_signature
      = some (some "sigX")) :=
  ⟨(signature_coalesce_amended stateConfirmedTx 1 TxStatus.confirmed confirmedTxRow rfl).1 none,
   (signature_coalesce_amended stateConfirmedTx 1 TxStatus.confirmed confirmedTxRow rfl).2 "sigX" none⟩

/-- C1 counterexample: on the external-transfer success path the
`used_today` increment and the confirmed-status write are issued as two
separate statements with no enclosing unit of work — the trace contains
both writes, contains no BEGIN, and fails the inside-a-transaction trace
predicate. -/
theorem atomic_spend_confirm_counterexample :
    (DBAction.exec (Stmt.updateLimitSpend 1 50)
      ∈ (transferExternal env0 stateFresh 1 "addr" 50 true true (Except.ok "sig1")).2.2) ∧
    (DBAction.exec (Stmt.updateTxStatus 1 TxStatus.confirmed (some "sig1") none)
      ∈ (transferExternal env0 stateFresh 1 "addr" 50 true true (Except.ok "sig1")).2.2) ∧
    (DBAction.begin
      ∉ (transferExternal env0 stateFresh 1 "addr" 50 true true (Except.ok "sig1")).2.2) ∧
    writesInsideTx
      (transferExternal env0 stateFresh 1 "addr" 50 true true (Except.ok "sig1")).2.2 0
      = false := by
  rw [transferExternal_ok_char env0 stateFresh 1 "addr" 50 "sig1" limitRowFresh rfl rfl
    (by norm_num [limitRowFresh]) rfl]
  refine ⟨?_, ?_, ?_, rfl⟩ <;> simp [stateFresh]

/-- C1 (amended): the spend-recording write (`used_today += amount + fee`)
and the confirmed-status write are performed inside one BEGIN/COMMIT unit
of work by `executeTransfer` (the internal-transfer path); on the
external-transfer success path the two writes are issued as separate
statements with no unit of work at all. -/
theorem atomic_spend_confirm_amended (env : Env) (s : DBState) (fw : Nat)
    (amount : ℚ) (sig : String) (l : SpendingLimit)
    (h1 : findLimit s fw = some l) (h2 : l.reset_date = env.today)
    (hF : txIdsFresh s = true) :
    (∀ tw fee,
      writesInsideTx (executeTransfer env s fw tw amount sig fee).2.2 0 = true ∧
      DBAction.exec (Stmt.updateLimitSpend fw (amount + fee))
        ∈ (executeTransfer env s fw tw amount sig fee).2.2 ∧
      DBAction.exec (Stmt.updateTxStatus s.next_tx_id TxStatus.confirmed (some sig) none)
        ∈ (executeTransfer env s fw tw amount sig fee).2.2) ∧
    (amount ≤ l.daily_limit - l.used_today →
      ∀ addr,
        DBAction.begin
          ∉ (transferExternal env s fw addr amount true true (Except.ok sig)).2.2 ∧
        DBAction.exec (Stmt.updateLimitSpend fw amount)
          ∈ (transferExternal env s fw addr amount true true (Except.ok sig)).2.2 ∧
        DBAction.exec (Stmt.updateTxStatus s.next_tx_id TxStatus.confirmed (some sig) none)
          ∈ (transferExternal env s fw addr amount true true (Except.ok sig)).2.2) := by
  constructor
  · intro tw fee
    rw [executeTransfer_char env s fw tw amount sig fee l h1 h2 hF]
    refine ⟨rfl, ?_, ?_⟩ <;> simp
  · intro hA addr
    rw [transferExternal_ok_char env s fw addr amount sig l h1 h2 hA hF]
    refine ⟨?_, ?_, ?_⟩ <;> simp

/-- Witness for the amended C1 on the fresh store. -/
theorem atomic_spend_confirm_amended_witness :
    (writesInsideTx (executeTransfer env0 stateFresh 1 2 50 "sig1" 1).2.2 0 = true ∧
     DBAction.exec (Stmt.updateLimitSpend 1 (50 + 1))
       ∈ (executeTransfer env0 stateFresh 1 2 50 "sig1" 1).2.2 ∧
     DBAction.exec (Stmt.updateTxStatus 1 TxStatus.confirmed (some "sig1") none)
       ∈ (executeTransfer env0 stateFresh 1 2 50 "sig1" 1).2.2) ∧
    (DBAction.begin
      ∉ (transferExternal env0 stateFresh 1 "addr" 50 true true (Except.ok "sig1")).2.2) :=
  ⟨(atomic_spend_confirm_amended env0 stateFresh 1 50 "sig1" limitRowFresh rfl rfl rfl).1 2 1,
   ((atomic_spend_confirm_amended env0 stateFresh 1 50 "sig1" limitRowFresh rfl rfl
      rfl).2 (by norm_num [limitRowFresh]) "addr").1⟩

/-- C3: evaluating `transfer` at the failing input (fresh store, internal
transfer of 50 that settles successfully with reference `sig1`): the
operation reports success, yet the ledger holds two rows for the one
transfer — the pending row created before the settlement call is left in
status `pending` forever, and a second row created by `executeTransfer`
is the one confirmed. -/
theorem transfer_success_duplicate_pending :
    ((transfer env0 stateFresh 1 2 50 true (Except.ok "sig1")).1.transactions.map
        (fun t => (t.id, t.status)) = [(1, TxStatus.pending), (2, TxStatus.confirmed)]) ∧
    ((transfer env0 stateFresh 1 2 50 true (Except.ok "sig1")).2.1.success = true) := by
  rw [transfer_ok_char env0 stateFresh 1 2 50 "sig1" limitRowFresh rfl rfl
    (by norm_num [limitRowFresh]) rfl]
  exact ⟨rfl, rfl⟩

/-- C5 counterexample: a failed settlement can change `used_today` — with
a stale limit row (80 used yesterday), the limit check inside the transfer
eagerly rolls the counter to 0 before the settlement call, so the
before/after snapshots differ (80 vs 0) even though settlement failed. -/
theorem settlement_failure_rollover_counterexample :
    ((findLimit stateStale 1).map SpendingLimit.used_today = some 80) ∧
    ((findLimit (transfer env0 stateStale 1 2 10 true (Except.error "boom")).1 1).map
        SpendingLimit.used_today = some 0) := by
  constructor
  · rfl
  · rw [transfer_err_stale_char]
    rfl

/-- C5 (amended): when no rollover is triggered (the source wallet's limit
row exists with a current `reset_date`), a failed settlement leaves the
limit row exactly unchanged, transitions the pending row to `failed`
carrying the error message, and the orchestrator returns
`success = false` with the error string — for both the internal and the
external transfer path. -/
theorem settlement_failure_frame (env : Env) (s : DBState) (fw : Nat)
    (l : SpendingLimit) (amount : ℚ) (msg : String)
    (h1 : findLimit s fw = some l) (h2 : l.reset_date = env.today)
    (hA : amount ≤ l.daily_limit - l.used_today) (hF : txIdsFresh s = true) :
    (∀ tw,
      findLimit (transfer env s fw tw amount true (Except.error msg)).1 fw = some l ∧
      (findTxById (transfer env s fw tw amount true (Except.error msg)).1 s.next_tx_id).map
          (fun t => (t.status, t.error_message)) = some (TxStatus.failed, some msg) ∧
      (transfer env s fw tw amount true (Except.error msg)).2.1
        = { success := false, error := some msg }) ∧
    (∀ addr,
      findLimit (transferExternal env s fw addr amount true true (Except.error msg)).1 fw
        = some l ∧
      (findTxById (transferExternal env s fw addr amount true true (Except.error msg)).1
          s.next_tx_id).map (fun t => (t.status, t.error_message))
        = some (TxStatus.failed, some msg) ∧
      (transferExternal env s fw addr amount true true (Except.error msg)).2.1
        = { success := false, error := some msg }) := by
  constructor
  · intro tw
    rw [transfer_err_char env s fw tw amount msg l h1 h2 hA hF]
    refine ⟨h1, ?_, rfl⟩
    rw [findTxById_update]
    rw [findTxById_insert_fresh s fw (some tw) none amount
      (amount * (env.platformFeePercent / 100)) none TxType.transfer hF]
    rfl
  · intro addr
    rw [transferExternal_err_char env s fw addr amount msg l h1 h2 hA hF]
    refine ⟨h1, ?_, rfl⟩
    rw [findTxById_update]
    rw [findTxById_insert_fresh s fw none (some addr) amount 0 none TxType.transfer hF]
    rfl

/-- Witness for the amended C5 on the fresh store. -/
theorem settlement_failure_frame_witness :
    (findLimit (transfer env0 stateFresh 1 2 10 true (Except.error "boom")).1 1
      = some limitRowFresh) ∧
    ((transfer env0 stateFresh 1 2 10 true (Except.error "boom")).2.1
      = { success := false, error := some "boom" }) ∧
    ((findTxById (transferExternal env0 stateFresh 1 "addr" 10 true true
        (Except.error "boom")).1 1).map (fun t => (t.status, t.error_message))
      = some (TxStatus.failed, some "boom")) := by
  have h := settlement_failure_frame env0 stateFresh 1 limitRowFresh 10 "boom" rfl rfl
    (by norm_num [limitRowFresh]) rfl
  exact ⟨(h.1 2).1, (h.1 2).2.2, (h.2 "addr").2.1⟩

end Claims

end AgentPay
